import Mathlib

/-!
# BookCourier backend — shallow embedding and verification

This file embeds the request handlers of the BookCourier Express/Mongoose
backend (`src/index.js`, plus the second server variant concatenated in
`src/unnamed/part_000`) as pure Lean functions over an explicit database
state, and proves or refutes the specification claims about them.

Modelling conventions:
* MongoDB documents become Lean structures; optional schema fields become
  `Option` fields; `_id`s become `Nat` (or `String` where the schema
  declares the reference as `String`).
* A database is a list of documents per collection plus a fresh-id counter
  standing for MongoDB ObjectId generation.
* `findOne`/`findById` become `List.find?`; `findByIdAndUpdate` becomes a
  `List.map` that rewrites the matching document (Mongoose strips
  `undefined` keys from update objects, so an absent body field leaves the
  stored field unchanged; `findByIdAndUpdate` does not run enum validators
  by default); `deleteMany` becomes `List.filter`; `deleteOne` becomes
  `List.eraseP`; `create` runs enum validation and applies schema defaults.
* Firebase token verification is a black box: an `AuthHeader` is either
  missing, present-but-invalid, or valid with a decoded email, matching the
  three outcomes of `verifyFirebaseToken`.
* The Stripe client is a black-box parameter `processor`; the handler
  result records the list of amounts sent to the processor, so that
  "no processor call is made" is expressible.
* A handler returns `Except ErrResp α`: `ErrResp` is the HTTP status code
  paired with the error payload string; an error response performs no
  database write.
-/

namespace BookCourier

/-- HTTP error response: status code and error message, as produced by
`res.status(code).send({ error: msg })`. -/
abbrev ErrResp := Nat × String

/-- Outcome of presenting (or not) an Authorization header to
`verifyFirebaseToken`: no header at all, a header whose token fails
`admin.auth().verifyIdToken`, or a verified token with a decoded email. -/
inductive AuthHeader where
  | missing : AuthHeader
  | invalid : AuthHeader
  | valid : String → AuthHeader
deriving Repr, DecidableEq

/-- The `enum` of `userSchema.role`. -/
def userRoles : List String := ["user", "librarian", "admin"]

/-- The `enum` of `orderSchema.status`. -/
def orderStatuses : List String := ["pending", "cancelled", "shipped", "delivered"]

/-- The `enum` of `orderSchema.paymentStatus`. -/
def payStatuses : List String := ["unpaid", "paid"]

/-- A `User` document (`userSchema`): name, unique email, role. -/
structure User where
  uid : Nat
  name : Option String := none
  email : Option String := none
  role : String := "user"
deriving Repr, DecidableEq

/-- An embedded review entry of `bookSchema.reviews`. -/
structure Review where
  userEmail : Option String := none
  rating : Option Int := none
  comment : Option String := none
deriving Repr, DecidableEq

/-- A `Book` document (`bookSchema` of `src/index.js`). -/
structure Book where
  bid : Nat
  title : Option String := none
  author : Option String := none
  description : Option String := none
  image : Option String := none
  price : Option Int := none
  category : Option String := none
  status : String := "published"
  addedByEmail : Option String := none
  addedByName : Option String := none
  reviews : List Review := []
deriving Repr, DecidableEq

/-- An `Order` document (`orderSchema` of `src/index.js`). -/
structure Order where
  oid : Nat
  bookId : Option Nat := none
  bookTitle : Option String := none
  email : Option String := none
  name : Option String := none
  phone : Option String := none
  address : Option String := none
  status : String := "pending"
  paymentStatus : String := "unpaid"
  price : Option Int := none
deriving Repr, DecidableEq

/-- The three MongoDB collections plus a fresh-id counter standing for
ObjectId generation. -/
structure DB where
  users : List User := []
  books : List Book := []
  orders : List Order := []
  nextId : Nat := 0
deriving Repr, DecidableEq

/-- `User.findOne({ email })`. -/
def findUser (db : DB) (email : String) : Option User :=
  db.users.find? (fun u => u.email == some email)

/-- `verifyFirebaseToken` (src/index.js:111-124): no header sends 401
`No token provided`; a header whose token fails verification sends 403
`Invalid token`; otherwise the decoded email is attached to the request. -/
def verifyToken : AuthHeader → Except ErrResp String
  | .missing => .error (401, "No token provided")
  | .invalid => .error (403, "Invalid token")
  | .valid email => .ok email

/-- `verifyRole(roles)` (src/index.js:126-134): looks up the caller's User
record by decoded email; absence of a record or a role outside `roles`
sends 403 `Forbidden`. -/
def verifyRoleStep (db : DB) (email : String) (roles : List String) : Except ErrResp Unit :=
  match findUser db email with
  | none => .error (403, "Forbidden")
  | some u => if roles.contains u.role then .ok () else .error (403, "Forbidden")

/-- The middleware chain `verifyFirebaseToken, verifyRole(roles)` as run in
front of a protected route; returns the decoded caller email on success. -/
def authAndRole (db : DB) (auth : AuthHeader) (roles : List String) : Except ErrResp String :=
  match verifyToken auth with
  | .error e => .error e
  | .ok email =>
    match verifyRoleStep db email roles with
    | .error e => .error e
    | .ok _ => .ok email

/-- `POST /api/users` (src/index.js:142-149): destructures `{email, name,
role}` from the body, returns the existing User for that email if one
exists, else creates `{ email, name, role: role || "user" }` (so a falsy —
absent or empty — client role falls back to `"user"`, and any other client
string is passed to `User.create`, which enforces the role enum). -/
def postUsers (db : DB) (email : String) (name : Option String)
    (role : Option String) : Except ErrResp (DB × User) :=
  match findUser db email with
  | some u => .ok (db, u)
  | none =>
    let r := match role with
      | none => "user"
      | some s => if s = "" then "user" else s
    if userRoles.contains r then
      let u : User := { uid := db.nextId, name := name, email := some email, role := r }
      .ok ({ db with users := db.users ++ [u], nextId := db.nextId + 1 }, u)
    else
      .error (500, "ValidationError: role")

/-- Body of `PATCH /api/users/:id`; the handler destructures only `role`,
but a client may also send `name`/`email` values, which the handler never
reads. -/
structure UserPatchBody where
  name : Option String := none
  email : Option String := none
  role : Option String := none
deriving Repr, DecidableEq

/-- `PATCH /api/users/:id` (src/index.js:156-172): admin-gated; rejects a
`role` outside the enum with 400 `Invalid role`; otherwise issues
`User.findByIdAndUpdate(id, { role })`, touching only the role field of
the matching document. -/
def patchUsers (db : DB) (auth : AuthHeader) (id : Nat) (body : UserPatchBody) :
    Except ErrResp (DB × Option User) :=
  match authAndRole db auth ["admin"] with
  | .error e => .error e
  | .ok _ =>
    match body.role with
    | none => .error (400, "Invalid role")
    | some r =>
      if userRoles.contains r then
        .ok ({ db with
                users := db.users.map (fun u => if u.uid == id then { u with role := r } else u) },
             (db.users.find? (fun u => u.uid == id)).map (fun u => { u with role := r }))
      else
        .error (400, "Invalid role")

/-- A `PATCH /api/books/:id` request body: any subset of the Book fields
(`req.body` is passed to `findByIdAndUpdate` wholesale). -/
structure BookPatch where
  title : Option String := none
  author : Option String := none
  description : Option String := none
  image : Option String := none
  price : Option Int := none
  category : Option String := none
  status : Option String := none
  addedByEmail : Option String := none
  addedByName : Option String := none
  reviews : Option (List Review) := none
deriving Repr, DecidableEq

/-- Merge of one optional body field over the stored optional field:
present keys overwrite, absent (`undefined`, stripped by Mongoose) keys
leave the stored value. -/
def mergeOpt {α : Type} (p cur : Option α) : Option α :=
  match p with
  | some v => some v
  | none => cur

/-- The `$set` applied by `Book.findByIdAndUpdate(id, req.body)`. -/
def applyBookPatch (p : BookPatch) (b : Book) : Book :=
  { b with
    title := mergeOpt p.title b.title
    author := mergeOpt p.author b.author
    description := mergeOpt p.description b.description
    image := mergeOpt p.image b.image
    price := mergeOpt p.price b.price
    category := mergeOpt p.category b.category
    status := p.status.getD b.status
    addedByEmail := mergeOpt p.addedByEmail b.addedByEmail
    addedByName := mergeOpt p.addedByName b.addedByName
    reviews := p.reviews.getD b.reviews }

/-- `PATCH /api/books/:id` (src/index.js:232-242): librarian/admin-gated;
`Book.findByIdAndUpdate(req.params.id, req.body, { new: true })` with the
whole request body, returning the updated document (or `null`). -/
def patchBook (db : DB) (auth : AuthHeader) (id : Nat) (p : BookPatch) :
    Except ErrResp (DB × Option Book) :=
  match authAndRole db auth ["librarian", "admin"] with
  | .error e => .error e
  | .ok _ =>
    .ok ({ db with
            books := db.books.map (fun b => if b.bid == id then applyBookPatch p b else b) },
         (db.books.find? (fun b => b.bid == id)).map (applyBookPatch p))

/-- `DELETE /api/books/:id` (src/index.js:288-309): admin-gated; 404 when
the book is absent, otherwise `Order.deleteMany({ bookId: book._id })`
followed by `book.deleteOne()`. -/
def deleteBook (db : DB) (auth : AuthHeader) (id : Nat) :
    Except ErrResp (DB × String) :=
  match authAndRole db auth ["admin"] with
  | .error e => .error e
  | .ok _ =>
    match db.books.find? (fun b => b.bid == id) with
    | none => .error (404, "Book not found")
    | some b =>
      .ok ({ db with
              orders := db.orders.filter (fun o => o.bookId != some b.bid)
              books := db.books.eraseP (fun bk => bk.bid == b.bid) },
           "Book and its orders deleted successfully")

/-- A `POST /api/orders` request body: the client may send any subset of
the Order schema fields (the handler spreads `req.body`). -/
structure OrderBody where
  bookId : Option Nat := none
  bookTitle : Option String := none
  email : Option String := none
  name : Option String := none
  phone : Option String := none
  address : Option String := none
  status : Option String := none
  paymentStatus : Option String := none
  price : Option Int := none
deriving Repr, DecidableEq

/-- `Order.create({ ...req.body, email: decoded.email })`: the spread puts
every body field into the new document, then the `email` key (written
after the spread) overrides any client-supplied email with the verified
caller's; `create` applies schema defaults to absent fields and enforces
the two enums. -/
def orderCreate (body : OrderBody) (callerEmail : String) (oid : Nat) :
    Except String Order :=
  let st := body.status.getD "pending"
  let ps := body.paymentStatus.getD "unpaid"
  if orderStatuses.contains st then
    if payStatuses.contains ps then
      .ok { oid := oid
            bookId := body.bookId
            bookTitle := body.bookTitle
            email := some callerEmail
            name := body.name
            phone := body.phone
            address := body.address
            status := st
            paymentStatus := ps
            price := body.price }
    else .error "ValidationError: paymentStatus"
  else .error "ValidationError: status"

/-- `POST /api/orders` (src/index.js:396-407): gated by
`verifyRole(["user"])`; creates the order with the caller's decoded email
overriding any client-supplied one. A Mongoose validation failure rejects
the `create` promise, surfacing as a 500-class failure. -/
def postOrders (db : DB) (auth : AuthHeader) (body : OrderBody) :
    Except ErrResp (DB × Order) :=
  match authAndRole db auth ["user"] with
  | .error e => .error e
  | .ok email =>
    match orderCreate body email db.nextId with
    | .error m => .error (500, m)
    | .ok o => .ok ({ db with orders := db.orders ++ [o], nextId := db.nextId + 1 }, o)

/-- A `PATCH /api/orders/:id` request body in `src/index.js`: passed to
`findByIdAndUpdate` wholesale, so any subset of the Order fields. -/
structure OrderPatch where
  bookId : Option Nat := none
  bookTitle : Option String := none
  email : Option String := none
  name : Option String := none
  phone : Option String := none
  address : Option String := none
  status : Option String := none
  paymentStatus : Option String := none
  price : Option Int := none
deriving Repr, DecidableEq

/-- The `$set` applied by `Order.findByIdAndUpdate(id, req.body)`. -/
def applyOrderPatch (p : OrderPatch) (o : Order) : Order :=
  { o with
    bookId := mergeOpt p.bookId o.bookId
    bookTitle := mergeOpt p.bookTitle o.bookTitle
    email := mergeOpt p.email o.email
    name := mergeOpt p.name o.name
    phone := mergeOpt p.phone o.phone
    address := mergeOpt p.address o.address
    status := p.status.getD o.status
    paymentStatus := p.paymentStatus.getD o.paymentStatus
    price := mergeOpt p.price o.price }

/-- `PATCH /api/orders/:id` (src/index.js:410-415): guarded only by
`verifyFirebaseToken` — no role check — and applies the client body
directly via `findByIdAndUpdate`. It touches only the `orders` collection;
no stock logic exists on this path. -/
def patchOrderRoute (db : DB) (auth : AuthHeader) (id : Nat) (p : OrderPatch) :
    Except ErrResp (DB × Option Order) :=
  match verifyToken auth with
  | .error e => .error e
  | .ok _ =>
    .ok ({ db with
            orders := db.orders.map (fun o => if o.oid == id then applyOrderPatch p o else o) },
         (db.orders.find? (fun o => o.oid == id)).map (applyOrderPatch p))

/-- `POST /api/create-payment-intent` (src/index.js:489-501): destructures
`amount` from the body and calls `stripe.paymentIntents.create({ amount,
currency: "usd", ... })` unconditionally — there is no validation of
`amount` before the call. The first component of the result is the list of
amounts sent to the Stripe client during the request; the second is the
response (`{ clientSecret }` on processor success, a 500-class failure
when the processor rejects). -/
def createPaymentIntent (processor : Option Int → Except String String)
    (amount : Option Int) : List (Option Int) × Except ErrResp String :=
  match processor amount with
  | .ok secret => ([amount], .ok secret)
  | .error _ => ([amount], .error (500, "payment provider error"))

/-- Two order bodies that agree on every field except the client-supplied
purchaser email. -/
def bodiesAgreeExceptEmail (b1 b2 : OrderBody) : Prop :=
  b1.bookId = b2.bookId ∧ b1.bookTitle = b2.bookTitle ∧ b1.name = b2.name
  ∧ b1.phone = b2.phone ∧ b1.address = b2.address ∧ b1.status = b2.status
  ∧ b1.paymentStatus = b2.paymentStatus ∧ b1.price = b2.price

/-- Fixture: one registered `user`-role account `u@x.test`. -/
def userFixtureDB : DB :=
  { users := [{ uid := 0, name := some "Uma", email := some "u@x.test", role := "user" }],
    nextId := 1 }

/-- Fixture: an order body carrying a spoofed purchaser email. -/
def spoofBody1 : OrderBody := { bookId := some 7, email := some "spoof@x.test" }

/-- Fixture: identical to `spoofBody1` except for the spoofed email. -/
def spoofBody2 : OrderBody := { bookId := some 7, email := some "enemy@x.test" }

/-- Fixture: an admin account plus an ordinary target account. -/
def adminFixtureDB : DB :=
  { users := [{ uid := 0, name := some "Root", email := some "root@x.test", role := "admin" },
              { uid := 1, name := some "Tia", email := some "t@x.test", role := "user" }],
    nextId := 2 }

/-- Fixture: a librarian owning book 1, an admin, two books, and three
orders spread across the two books. -/
def libFixtureDB : DB :=
  { users := [{ uid := 0, name := some "Liv", email := some "lib@x.test", role := "librarian" },
              { uid := 1, name := some "Root", email := some "root@x.test", role := "admin" }],
    books := [{ bid := 10, title := some "A", addedByEmail := some "lib@x.test" },
              { bid := 11, title := some "B", addedByEmail := some "lib@x.test" }],
    orders := [{ oid := 20, bookId := some 10, email := some "u@x.test" },
               { oid := 21, bookId := some 11, email := some "u@x.test" },
               { oid := 22, bookId := some 10, email := some "v@x.test" }],
    nextId := 30 }

/-- Fixture: `libFixtureDB` after the cascade delete of book 10. -/
def cascadeDB : DB :=
  { users := libFixtureDB.users,
    books := [{ bid := 11, title := some "B", addedByEmail := some "lib@x.test" }],
    orders := [{ oid := 21, bookId := some 11, email := some "u@x.test" }],
    nextId := 30 }

/-- Fixture: `adminFixtureDB` after the admin sets user 1's role to
librarian. -/
def roleUpdatedDB : DB :=
  { users := [{ uid := 0, name := some "Root", email := some "root@x.test", role := "admin" },
              { uid := 1, name := some "Tia", email := some "t@x.test", role := "librarian" }],
    nextId := 2 }

/-- Fixture: `libFixtureDB` after retitling book 10. -/
def libPatchedDB : DB :=
  { users := libFixtureDB.users,
    books := [{ bid := 10, title := some "A2", addedByEmail := some "lib@x.test" },
              { bid := 11, title := some "B", addedByEmail := some "lib@x.test" }],
    orders := libFixtureDB.orders,
    nextId := 30 }

end BookCourier

namespace BookCourierV2

/-!
The second server variant (the file after the separator in
`src/unnamed/part_000`, lines 308-459): no auth middleware, Books carry a
`quantity` field, `bookId` on an Order is a plain `String`, and
`PATCH /api/orders/:id` destructures exactly `{ paymentStatus, status }`
from the body.
-/

/-- A `Book` document of the variant-2 `bookSchema` (title, author, image,
description, category, quantity). -/
structure Book where
  bid : String
  title : Option String := none
  author : Option String := none
  image : Option String := none
  description : Option String := none
  category : Option String := none
  quantity : Option Int := none
deriving Repr, DecidableEq

/-- An `Order` document of the variant-2 `orderSchema` (no enums; string
`bookId`; defaults `pending`/`unpaid`). -/
structure Order where
  oid : Nat
  bookId : Option String := none
  bookTitle : Option String := none
  name : Option String := none
  email : Option String := none
  phone : Option String := none
  address : Option String := none
  status : String := "pending"
  paymentStatus : String := "unpaid"
deriving Repr, DecidableEq

/-- The variant-2 collections. -/
structure DB where
  books : List Book := []
  orders : List Order := []
deriving Repr, DecidableEq

/-- The `$set` applied by `Order.findByIdAndUpdate(id, { paymentStatus,
status })`: an `undefined` destructured field is stripped by Mongoose and
leaves the stored value. -/
def applyPayPatch (ps st : Option String) (o : Order) : Order :=
  { o with
    paymentStatus := ps.getD o.paymentStatus
    status := st.getD o.status }

/-- `PATCH /api/orders/:id` of variant 2 (src/unnamed/part_000:443-452):
updates the order's `paymentStatus`/`status` from the body and returns the
updated document. The handler never reads or writes the `books`
collection: there is no stock-decrement logic. -/
def patchOrder (db : DB) (id : Nat) (ps st : Option String) :
    DB × Option Order :=
  ({ db with
      orders := db.orders.map (fun o => if o.oid == id then applyPayPatch ps st o else o) },
   (db.orders.find? (fun o => o.oid == id)).map (applyPayPatch ps st))

end BookCourierV2

namespace BookCourierV2

/-- C1, counterexample: in the concrete state with Book `"b1"` at quantity
5 and unpaid order 1 referencing it, replaying `PATCH { paymentStatus:
"paid", status: "delivered" }` twice leaves the book's quantity at 5 — not
at 4, i.e. not "decremented by exactly 1 relative to its value before the
first update" as the claim states. The handler contains no stock logic at
all. -/
theorem paid_replay_stock_unchanged_cex :
    ((((patchOrder
          ((patchOrder
              { books := [{ bid := "b1", title := some "X", quantity := some 5 }],
                orders := [{ oid := 1, bookId := some "b1", bookTitle := some "X" }] }
              1 (some "paid") (some "delivered")).1)
          1 (some "paid") (some "delivered")).1).books.find?
        (fun b => b.bid == "b1")).map Book.quantity) = some (some 5)
    ∧ some (some (5 : Int)) ≠ some (some (4 : Int)) := by
  exact ⟨rfl, by decide⟩

/-- C1 (amended): the order-update operation never touches the books
collection, so setting `paymentStatus` to `"paid"` — once, or replayed a
second time on the already-paid order — leaves every Book's stock quantity
unchanged: the stock decrement occurs zero times (hence at most once) per
Order. -/
theorem order_patch_preserves_books (db : DB) (id : Nat)
    (ps st ps2 st2 : Option String) :
    ((patchOrder db id ps st).1).books = db.books
    ∧ ((patchOrder ((patchOrder db id ps st).1) id ps2 st2).1).books = db.books := by
  exact ⟨rfl, rfl⟩

end BookCourierV2

namespace BookCourier

/-- C2: the generic order-update route is reachable with an arbitrary
client body by any caller with a valid token — no role check, no
payment-bridge involvement — and the body `{ paymentStatus: "paid" }`
moves the stored unpaid order 1 to `paymentStatus = "paid"`. -/
theorem client_patch_sets_paid :
    ((patchOrderRoute
        { users := [{ uid := 0, name := some "Mallory",
                      email := some "mallory@x.test", role := "user" }],
          orders := [{ oid := 1, bookId := some 10 }],
          nextId := 2 }
        (AuthHeader.valid "mallory@x.test") 1
        { paymentStatus := some "paid" }).toOption.map
      (fun r => r.1.orders.map Order.paymentStatus)) = some ["paid"] := by
  rfl

/-- C5, counterexample: a present-but-invalid credential is rejected with
status 403 (`Invalid token`), not the 401 unauthenticated signal the claim
assigns to "missing or invalid credential". -/
theorem invalid_token_status_cex :
    authAndRole {} AuthHeader.invalid ["user"] = .error (403, "Invalid token")
    ∧ (403 : Nat) ≠ 401 := by
  exact ⟨rfl, by decide⟩

/-- C5 (amended): a missing credential yields 401 `No token provided`; a
present-but-invalid credential yields 403 `Invalid token`; an
authenticated caller with no User record, or a role outside the required
set, yields 403 `Forbidden`. Invalid-credential and forbidden rejections
share status 403 and are distinguished only by their error message. -/
theorem access_control_signals (db : DB) (roles : List String)
    (e1 e2 : String) (u : User)
    (h1 : findUser db e1 = none)
    (h2 : findUser db e2 = some u)
    (hrole : u.role ∉ roles) :
    authAndRole db .missing roles = .error (401, "No token provided")
    ∧ authAndRole db .invalid roles = .error (403, "Invalid token")
    ∧ authAndRole db (.valid e1) roles = .error (403, "Forbidden")
    ∧ authAndRole db (.valid e2) roles = .error (403, "Forbidden") := by
  refine ⟨rfl, rfl, ?_, ?_⟩ <;>
    simp [authAndRole, verifyToken, verifyRoleStep, h1, h2, hrole]

/-- Witness for `access_control_signals` at a concrete one-user store. -/
theorem access_control_signals_witness :
    authAndRole { users := [{ uid := 0, email := some "bob@x.test", role := "user" }] }
        AuthHeader.invalid ["admin"] = .error (403, "Invalid token")
    ∧ authAndRole { users := [{ uid := 0, email := some "bob@x.test", role := "user" }] }
        (AuthHeader.valid "bob@x.test") ["admin"] = .error (403, "Forbidden") := by
  have h := access_control_signals
    { users := [{ uid := 0, email := some "bob@x.test", role := "user" }] }
    ["admin"] "alice@x.test" "bob@x.test"
    { uid := 0, email := some "bob@x.test", role := "user" }
    (by decide) (by decide) (by decide)
  exact ⟨h.2.1, h.2.2.2⟩

/-- C3, counterexample: a request with amount 0 still issues a processor
call (the call log is `[some 0]`, not `[]`): no validation precedes the
call to `stripe.paymentIntents.create`. -/
theorem payment_zero_amount_calls_processor_cex :
    (createPaymentIntent (fun _ => .ok "cs_tok") (some 0)).1 = [some 0]
    ∧ ([some (0 : Int)] : List (Option Int)) ≠ [] := by
  exact ⟨rfl, by decide⟩

/-- C3 (amended): the handler performs no amount validation: every request
— zero, negative, missing or positive amount alike — results in exactly
one processor call carrying that amount; when the processor accepts (as
for a positive amount such as 500) its confirmation token is returned
unchanged as the client secret. -/
theorem payment_intent_forwards_amount
    (processor : Option Int → Except String String)
    (amount : Option Int) (s : String)
    (hok : processor amount = .ok s) :
    (createPaymentIntent processor amount).1 = [amount]
    ∧ (createPaymentIntent processor amount).2 = .ok s := by
  simp [createPaymentIntent, hok]

/-- Witness for `payment_intent_forwards_amount`: amount 500 against a
processor answering with token `pi_secret`. -/
theorem payment_intent_forwards_amount_witness :
    (createPaymentIntent (fun _ => .ok "pi_secret") (some 500)).1 = [some 500]
    ∧ (createPaymentIntent (fun _ => .ok "pi_secret") (some 500)).2 = .ok "pi_secret" :=
  payment_intent_forwards_amount (fun _ => .ok "pi_secret") (some 500) "pi_secret" rfl

/-- Inversion for `orderCreate`: a successfully created order carries the
caller's email and the (defaulted) body statuses. -/
theorem orderCreate_ok_fields {b : OrderBody} {c : String} {n : Nat} {o : Order}
    (h : orderCreate b c n = .ok o) :
    o.email = some c ∧ o.status = b.status.getD "pending"
    ∧ o.paymentStatus = b.paymentStatus.getD "unpaid" := by
  unfold orderCreate at h
  dsimp only at h
  split at h
  · split at h
    · injection h with h
      subst h
      exact ⟨rfl, rfl, rfl⟩
    · simp at h
  · simp at h

/-- `orderCreate` never reads the body's email field: bodies agreeing
outside the email field create identical documents. -/
theorem orderCreate_agree {b1 b2 : OrderBody} (hagree : bodiesAgreeExceptEmail b1 b2)
    (c : String) (n : Nat) : orderCreate b1 c n = orderCreate b2 c n := by
  obtain ⟨e1, e2, e3, e4, e5, e6, e7, e8⟩ := hagree
  unfold orderCreate
  rw [e1, e2, e3, e4, e5, e6, e7, e8]

/-- Inversion for `postOrders`: success means the middleware admitted the
caller and `Order.create` succeeded on the caller's decoded email. -/
theorem postOrders_ok_inv {db : DB} {auth : AuthHeader} {b : OrderBody}
    {d : DB} {o : Order} (h : postOrders db auth b = .ok (d, o)) :
    ∃ email, authAndRole db auth ["user"] = .ok email
      ∧ orderCreate b email db.nextId = .ok o := by
  unfold postOrders at h
  split at h
  · simp at h
  · rename_i email heq
    split at h
    · simp at h
    · rename_i o2 hco
      injection h with h
      injection h with hd ho
      exact ⟨email, heq, ho ▸ hco⟩

/-- Inversion for `authAndRole`: a successful run of the middleware chain
only happens on a valid token whose decoded email is the returned one. -/
theorem authAndRole_ok_valid {db : DB} {auth : AuthHeader} {roles : List String}
    {email : String} (h : authAndRole db auth roles = .ok email) :
    auth = .valid email := by
  cases auth with
  | missing => simp [authAndRole, verifyToken] at h
  | invalid => simp [authAndRole, verifyToken] at h
  | valid e =>
    simp only [authAndRole, verifyToken] at h
    split at h
    · simp at h
    · injection h with h
      rw [h]

/-- C4: an order created through the user-gated route carries the verified
caller's email whatever the body says, and the route's whole outcome is
oblivious to the client-supplied email field: two creation requests by the
same caller whose bodies differ only in that field have identical
responses, so in particular the same purchaser email. -/
theorem order_email_from_verified_caller (db : DB) (caller : String)
    (b1 b2 : OrderBody) (hagree : bodiesAgreeExceptEmail b1 b2) :
    (∀ d o, postOrders db (.valid caller) b1 = .ok (d, o) → o.email = some caller)
    ∧ postOrders db (.valid caller) b1 = postOrders db (.valid caller) b2 := by
  constructor
  · intro d o h
    obtain ⟨email, hauth, hco⟩ := postOrders_ok_inv h
    have he : AuthHeader.valid caller = AuthHeader.valid email := authAndRole_ok_valid hauth
    injection he with he
    rw [he]
    exact (orderCreate_ok_fields hco).1
  · cases hA : authAndRole db (.valid caller) ["user"] with
    | error e => simp [postOrders, hA]
    | ok email => simp [postOrders, hA, orderCreate_agree hagree]

/-- Witness for `order_email_from_verified_caller`: two concrete bodies
differing only in the spoofed email give identical creation responses. -/
theorem order_email_from_verified_caller_witness :
    postOrders userFixtureDB (.valid "u@x.test") spoofBody1
      = postOrders userFixtureDB (.valid "u@x.test") spoofBody2 :=
  (order_email_from_verified_caller userFixtureDB "u@x.test" spoofBody1 spoofBody2
    (by constructor <;> simp [spoofBody1, spoofBody2])).2

/-- C6, counterexample: a creation body supplying `status: "shipped"` and
`paymentStatus: "paid"` is honoured by `Order.create` (both are valid enum
values): the new order is not `pending`/`unpaid`. -/
theorem order_create_client_status_cex :
    ((postOrders userFixtureDB (.valid "u@x.test")
        { status := some "shipped", paymentStatus := some "paid" }).toOption.map
      (fun p => (p.2.status, p.2.paymentStatus))) = some ("shipped", "paid")
    ∧ ("shipped", "paid") ≠ ("pending", "unpaid") := by
  exact ⟨rfl, by decide⟩

/-- C6 (amended): the created Order has status `pending` and paymentStatus
`unpaid` whenever the client body supplies neither field; these are
Mongoose schema defaults, not invariants — a body supplying valid enum
values is honoured (see the counterexample). -/
theorem order_create_defaults (db : DB) (auth : AuthHeader) (body : OrderBody)
    (d : DB) (o : Order)
    (hs : body.status = none) (hp : body.paymentStatus = none)
    (h : postOrders db auth body = .ok (d, o)) :
    o.status = "pending" ∧ o.paymentStatus = "unpaid" := by
  obtain ⟨email, _, hco⟩ := postOrders_ok_inv h
  have hf := orderCreate_ok_fields hco
  rw [hs, hp] at hf
  exact ⟨by simpa using hf.2.1, by simpa using hf.2.2⟩

/-- Witness for `order_create_defaults`: a body with no status fields
creates a `pending`/`unpaid` order in the one-user fixture store. -/
theorem order_create_defaults_witness :
    ({ oid := 1, bookId := some 7, email := some "u@x.test" } : Order).status = "pending"
    ∧ ({ oid := 1, bookId := some 7, email := some "u@x.test" } : Order).paymentStatus
        = "unpaid" :=
  order_create_defaults userFixtureDB (.valid "u@x.test") { bookId := some 7 }
    { users := userFixtureDB.users,
      orders := [{ oid := 1, bookId := some 7, email := some "u@x.test" }], nextId := 2 }
    { oid := 1, bookId := some 7, email := some "u@x.test" }
    rfl rfl rfl

/-- C7, counterexample: a librarian-authenticated book update whose body
carries `addedByEmail: "evil@x.test"` rewrites book 10's owner, previously
`lib@x.test` — the merge does allow changing the owner field. -/
theorem book_patch_owner_change_cex :
    ((patchBook libFixtureDB (.valid "lib@x.test") 10
        { addedByEmail := some "evil@x.test" }).toOption.map
      (fun r => r.1.books.map Book.addedByEmail))
      = some [some "evil@x.test", some "lib@x.test"]
    ∧ (some "evil@x.test" : Option String) ≠ some "lib@x.test" := by
  exact ⟨rfl, by decide⟩

/-- C7 (amended): the book update is a partial merge that overwrites
exactly the fields the client body supplies, the owner field included: it
preserves every book's owner precisely when the body omits
`addedByEmail`. -/
theorem book_patch_owner_frame (db : DB) (auth : AuthHeader) (id : Nat)
    (p : BookPatch) (d : DB) (ret : Option Book)
    (hp : p.addedByEmail = none)
    (h : patchBook db auth id p = .ok (d, ret)) :
    d.books.map Book.addedByEmail = db.books.map Book.addedByEmail := by
  unfold patchBook at h
  split at h
  · simp at h
  · injection h with h
    injection h with hd hret
    subst hd
    rw [List.map_map]
    apply List.map_congr_left
    intro b _
    by_cases hb : b.bid == id <;>
      simp [Function.comp, hb, applyBookPatch, mergeOpt, hp]

/-- Witness for `book_patch_owner_frame`: a body updating only the title
leaves both owners in the two-book fixture unchanged. -/
theorem book_patch_owner_frame_witness :
    libPatchedDB.books.map Book.addedByEmail
      = libFixtureDB.books.map Book.addedByEmail :=
  book_patch_owner_frame libFixtureDB (.valid "lib@x.test") 10
    { title := some "A2" } libPatchedDB
    (some { bid := 10, title := some "A2", addedByEmail := some "lib@x.test" })
    rfl rfl

/-- In a list of documents with pairwise-distinct keys, erasing the first
key match leaves no document with that key. -/
theorem eraseP_key_ne {α : Type} (f : α → Nat) (id : Nat) :
    ∀ l : List α, (l.map f).Nodup →
      ∀ b ∈ l.eraseP (fun x => f x == id), f b ≠ id := by
  intro l
  induction l with
  | nil => simp
  | cons a t ih =>
    intro hnd b hb
    rw [List.map_cons, List.nodup_cons] at hnd
    by_cases ha : f a = id
    · rw [List.eraseP_cons_of_pos (by simpa using ha)] at hb
      intro hbid
      apply hnd.1
      have h1 : f b ∈ t.map f := List.mem_map_of_mem f hb
      rw [hbid] at h1
      rw [ha]
      exact h1
    · rw [List.eraseP_cons_of_neg (by simpa using ha)] at hb
      rcases List.mem_cons.mp hb with hba | hb2
      · rw [hba]; exact ha
      · exact ih hnd.2 b hb2

/-- Erasing the first key match keeps every document whose key differs. -/
theorem mem_eraseP_of_key_ne {α : Type} (f : α → Nat) (id : Nat) :
    ∀ (l : List α) (b : α), b ∈ l → f b ≠ id →
      b ∈ l.eraseP (fun x => f x == id) := by
  intro l
  induction l with
  | nil => simp
  | cons a t ih =>
    intro b hb hne
    by_cases ha : f a = id
    · rw [List.eraseP_cons_of_pos (by simpa using ha)]
      rcases List.mem_cons.mp hb with hba | hb2
      · exact absurd (hba ▸ ha) hne
      · exact hb2
    · rw [List.eraseP_cons_of_neg (by simpa using ha)]
      rcases List.mem_cons.mp hb with hba | hb2
      · rw [hba]; exact List.mem_cons_self a _
      · exact List.mem_cons_of_mem a (ih b hb2 hne)

/-- C8: deleting book `id` through the admin route removes exactly the
orders whose book reference is `id`, removes the book itself, keeps every
other book, and leaves the users untouched (book ids are pairwise
distinct, as MongoDB `_id`s are). -/
theorem delete_book_cascade (db : DB) (auth : AuthHeader) (id : Nat)
    (d : DB) (msg : String)
    (hnd : (db.books.map Book.bid).Nodup)
    (h : deleteBook db auth id = .ok (d, msg)) :
    d.orders = db.orders.filter (fun o => o.bookId != some id)
    ∧ (∀ b ∈ d.books, b.bid ≠ id)
    ∧ (∀ b ∈ db.books, b.bid ≠ id → b ∈ d.books)
    ∧ d.users = db.users := by
  unfold deleteBook at h
  split at h
  · simp at h
  · split at h
    · simp at h
    · rename_i b hfind
      injection h with h
      injection h with hd hmsg
      have hbid : b.bid = id := by simpa using List.find?_some hfind
      subst hd
      subst hbid
      exact ⟨rfl,
             fun bk hbk => eraseP_key_ne Book.bid b.bid db.books hnd bk hbk,
             fun bk hbk hne => mem_eraseP_of_key_ne Book.bid b.bid db.books bk hbk hne,
             rfl⟩

/-- Witness for `delete_book_cascade`: deleting book 10 from the two-book
three-order fixture keeps precisely the order on book 11. -/
theorem delete_book_cascade_witness :
    cascadeDB.orders = libFixtureDB.orders.filter (fun o => o.bookId != some 10)
    ∧ cascadeDB.users = libFixtureDB.users := by
  have h := delete_book_cascade libFixtureDB (.valid "root@x.test") 10 cascadeDB
    "Book and its orders deleted successfully" (by decide) rfl
  exact ⟨h.1, h.2.2.2⟩

/-- C9, counterexample: registering a fresh email with client body role
"admin" creates a record whose role is "admin", not "user": `role: role ||
"user"` honours any truthy client role. -/
theorem registration_client_role_cex :
    ((postUsers {} "a@x.test" none (some "admin")).toOption.map
      (fun p => p.2.role)) = some "admin"
    ∧ "admin" ≠ "user" := by
  exact ⟨rfl, by decide⟩

/-- C9 (amended): registration is an upsert-by-email: a registered email
returns the stored record with no state change; a fresh email creates a
record whose role defaults to "user" only when the client supplies no (or
an empty) role — a non-empty client-supplied role is stored as sent. -/
theorem user_registration_upsert (db : DB) (email : String)
    (name role : Option String) :
    (∀ u, findUser db email = some u → postUsers db email name role = .ok (db, u))
    ∧ (findUser db email = none →
        ∀ d u, postUsers db email name role = .ok (d, u) →
          d.users = db.users ++ [u] ∧ u.email = some email
          ∧ (role = none → u.role = "user")
          ∧ (∀ s, role = some s → s ≠ "" → u.role = s)) := by
  constructor
  · intro u hu
    unfold postUsers
    rw [hu]
  · intro hnone d u h
    unfold postUsers at h
    rw [hnone] at h
    dsimp only at h
    split at h
    · injection h with h
      injection h with hd hu
      subst hd
      subst hu
      refine ⟨rfl, rfl, ?_, ?_⟩
      · intro hr
        subst hr
        rfl
      · intro s hs hne
        subst hs
        simp [hne]
    · simp at h

/-- Witness for `user_registration_upsert`: a fresh registration with
client role "admin" stores role "admin". -/
theorem user_registration_upsert_witness :
    ({ uid := 0, name := none, email := some "a@x.test", role := "admin" } : User).role
      = "admin" :=
  ((user_registration_upsert {} "a@x.test" none (some "admin")).2 rfl
    { users := [{ uid := 0, name := none, email := some "a@x.test", role := "admin" }],
      nextId := 1 }
    { uid := 0, name := none, email := some "a@x.test", role := "admin" }
    rfl).2.2.2 "admin" rfl (by decide)

/-- C10: an admin-issued role update with a valid role writes only the
role field — every stored name and email is unchanged even though the
request body may carry name/email values, untargeted users are kept as
they are, and the target's role becomes the requested role — while a role
outside the enum is rejected with 400 `Invalid role` and no update is
issued. -/
theorem user_role_update_frame (db : DB) (auth : AuthHeader) (id : Nat)
    (b1 b2 : UserPatchBody) (r s : String) (d : DB) (ret : Option User)
    (h1 : b1.role = some r) (hr : r ∈ userRoles)
    (hok : patchUsers db auth id b1 = .ok (d, ret))
    (h2 : b2.role = some s) (hs : s ∉ userRoles) :
    d.users.map User.name = db.users.map User.name
    ∧ d.users.map User.email = db.users.map User.email
    ∧ (∀ u ∈ db.users, u.uid ≠ id → u ∈ d.users)
    ∧ (∀ u ∈ d.users, u.uid = id → u.role = r)
    ∧ patchUsers db auth id b2 = .error (400, "Invalid role") := by
  unfold patchUsers at hok
  split at hok
  · simp at hok
  · rename_i e hauth
    rw [h1] at hok
    dsimp only at hok
    rw [if_pos (by simpa using hr)] at hok
    injection hok with hok
    injection hok with hd hret
    subst hd
    refine ⟨?_, ?_, ?_, ?_, ?_⟩
    · rw [List.map_map]
      apply List.map_congr_left
      intro u _
      by_cases hu : u.uid == id <;> simp [Function.comp, hu]
    · rw [List.map_map]
      apply List.map_congr_left
      intro u _
      by_cases hu : u.uid == id <;> simp [Function.comp, hu]
    · intro u hu hne
      have hfalse : (u.uid == id) = false := by simpa using hne
      have : (fun v => if v.uid == id then { v with role := r } else v) u = u := by
        simp [hfalse]
      exact this ▸ List.mem_map_of_mem _ hu
    · intro u hu huid
      rcases List.mem_map.mp hu with ⟨v, hv, hvu⟩
      by_cases hvid : v.uid == id
      · rw [if_pos hvid] at hvu
        rw [← hvu]
      · rw [if_neg hvid] at hvu
        subst hvu
        exact absurd huid (by simpa using hvid)
    · unfold patchUsers
      rw [hauth, h2]
      dsimp only
      rw [if_neg (by simpa using hs)]

/-- Witness for `user_role_update_frame`: the concrete admin store, a
valid-role body carrying name/email noise, and an invalid-role body. -/
theorem user_role_update_frame_witness :
    roleUpdatedDB.users.map User.name = adminFixtureDB.users.map User.name
    ∧ roleUpdatedDB.users.map User.email = adminFixtureDB.users.map User.email
    ∧ patchUsers adminFixtureDB (.valid "root@x.test") 1 { role := some "superuser" }
        = .error (400, "Invalid role") := by
  have h := user_role_update_frame adminFixtureDB (.valid "root@x.test") 1
    { name := some "Hack", email := some "h@x.test", role := some "librarian" }
    { role := some "superuser" } "librarian" "superuser" roleUpdatedDB
    (some { uid := 1, name := some "Tia", email := some "t@x.test", role := "librarian" })
    rfl (by decide) rfl rfl (by decide)
  exact ⟨h.1, h.2.1, h.2.2.2.2⟩

end BookCourier
